import Mathlib

/-!
Verification of the behavioral-insights tracker agent
(`src/public/tracker.js`) against its natural-language specification.

The tracker is a browser instrumentation script.  Its detection logic is
embedded shallowly: each mutable buffer of the script becomes an explicit
value threaded through a step function, each `sendEvent(...)` call becomes
an element of a returned event list, and DOM/host objects are replaced by
records carrying exactly the attributes the source code reads.  Times are
`Nat` milliseconds (JavaScript `Date.now()`); coordinates are `Int`
(JavaScript `clientX`/`clientY` are integers).  `Nat` truncated
subtraction agrees with the JavaScript comparisons used by the source:
every age test in the source has the shape `now - t < W` with `W > 0`,
which holds for a negative JavaScript difference exactly as it holds for a
truncated-to-zero `Nat` difference.
-/

/-! ## Click pattern analyzer (tracker.js lines 379-418)

A buffered click sample.  The source also stores an `element` selector
string in each sample; the detection logic never reads it, so it is not
modelled.  -/

structure Click where
  time : Nat
  x : Int
  y : Int
deriving DecidableEq, Repr

/-- Payload of a `rage_click` emission, restricted to the fields that the
detection logic itself computes (`clickCount`, `timeWindow`); the
remaining envelope fields (coordinates, selectors, the page-global
`totalRageClicks` counter) copy the triggering click and do not feed back
into detection. -/
structure RageEvent where
  clickCount : Nat
  timeWindow : Nat
deriving DecidableEq, Repr

/-- `recentClicks = recentClicks.filter(c => now - c.time < threshold)`
with `threshold = 500`. -/
def pruneClicks (now : Nat) (l : List Click) : List Click :=
  l.filter fun c => now - c.time < 500

/-- `recentClicks.every(c => Math.abs(c.x - firstClick.x) < 50 &&
Math.abs(c.y - firstClick.y) < 50)` where `firstClick = recentClicks[0]`. -/
def allInSameArea (l : List Click) : Bool :=
  match l with
  | [] => true
  | first :: _ =>
    l.all fun c => (c.x - first.x).natAbs < 50 && (c.y - first.y).natAbs < 50

/-- `detectRageClick` (tracker.js 379-418): push the incoming click, prune
entries older than 500ms, and if at least 3 samples remain, all within
50px of the first buffered sample, emit `rage_click` with
`clickCount = recentClicks.length` and
`timeWindow = now - firstClick.time`, then clear the buffer. -/
def detectRageClick (buf : List Click) (c : Click) : List Click × Option RageEvent :=
  let buf1 := pruneClicks c.time (buf ++ [c])
  if 3 ≤ buf1.length then
    if allInSameArea buf1 then
      ([], some ⟨buf1.length, c.time - (buf1.headD ⟨0, 0, 0⟩).time⟩)
    else (buf1, none)
  else (buf1, none)

/-- Process a whole sequence of clicks starting from an empty buffer,
collecting every `rage_click` emission (the click handler is invoked once
per click in order). -/
def runRage (cs : List Click) : List Click × List RageEvent :=
  cs.foldl
    (fun s c =>
      let r := detectRageClick s.1 c
      (r.1, s.2 ++ r.2.toList))
    ([], [])

/-! ## Dead click detection (tracker.js lines 109-119 and 420-450)

A clicked DOM element is modelled by the attributes the source reads:
tag name (lower-cased, as `tagName.toLowerCase()` produces), the `role`
attribute (`""` when absent), whether `element.onclick` or the `onclick`
attribute is set, the inline `style.cursor`, the computed cursor from
`getComputedStyle`, and the class list. -/

structure ElemAttrs where
  tag : String
  role : String
  onclickSet : Bool
  styleCursor : String
  computedCursor : String
  classes : List String
deriving DecidableEq, Repr

/-- A click target together with its ancestor chain (innermost first), as
far as `Element.closest` can walk it. -/
structure DomElement where
  attrs : ElemAttrs
  ancestors : List ElemAttrs
deriving DecidableEq, Repr

/-- `clickableTags` of `isClickableElement` (tracker.js 112).  Note that it
contains `label`, which the structural selector used by `closest` in
`detectDeadClick` does not. -/
def clickableTags : List String :=
  ["a", "button", "input", "select", "textarea", "label"]

/-- `isClickableElement` (tracker.js 109-119): clickable tag, or
`role="button"`, or an onclick handler, or an inline or computed
`cursor: pointer`.  The cursor checks make this broader than a purely
structural predicate. -/
def isClickableElement (a : ElemAttrs) : Bool :=
  clickableTags.contains a.tag || a.role == "button" || a.onclickSet ||
    a.styleCursor == "pointer" || a.computedCursor == "pointer"

/-- Whether one element matches the selector
`'a, button, input, select, textarea, [role="button"]'` used by
`target.closest` in `detectDeadClick` (tracker.js 434). -/
def matchesClickableSelector (a : ElemAttrs) : Bool :=
  ["a", "button", "input", "select", "textarea"].contains a.tag ||
    a.role == "button"

/-- `target.closest('a, button, input, select, textarea, [role="button"]')`
is non-null: the target itself or one of its ancestors matches. -/
def closestClickable (e : DomElement) : Bool :=
  matchesClickableSelector e.attrs || e.ancestors.any matchesClickableSelector

/-- `looksClickable` of `detectDeadClick` (tracker.js 423-431): pointer
cursor (inline or computed), an `img` tag, or one of the interactivity
marker classes. -/
def looksClickable (a : ElemAttrs) : Bool :=
  a.styleCursor == "pointer" || a.computedCursor == "pointer" ||
    a.tag == "img" || a.classes.contains "btn" || a.classes.contains "button" ||
    a.classes.contains "link" || a.classes.contains "clickable"

/-- `isActuallyClickable` of `detectDeadClick` (tracker.js 433-434). -/
def isActuallyClickable (e : DomElement) : Bool :=
  isClickableElement e.attrs || closestClickable e

/-- `detectDeadClick` (tracker.js 420-450) reduced to its emission
decision: `dead_click` fires exactly when `looksClickable` holds and
`isActuallyClickable` does not.  The event payload (selector, path, text,
coordinates, running counter) copies the target and does not influence
the decision, so the model returns the decision itself. -/
def detectDeadClick (e : DomElement) : Bool :=
  looksClickable e.attrs && !isActuallyClickable e

/-- Modelled from the spec: the structural "is actually clickable"
predicate as the specification words it — "the element is, or is nested
in, an anchor/button/input/select/textarea/role=button, or has a click
handler".  Stated for comparison against the source's
`isActuallyClickable`, which additionally treats a pointer cursor and a
`label` tag as actually clickable. -/
def structurallyClickable (e : DomElement) : Bool :=
  closestClickable e || e.attrs.onclickSet

/-! ## Mouse motion analyzer (tracker.js lines 452-492 and 585-601)

A mouse sample `{time, x, y}` as pushed by `trackMouseMove`. -/

structure MousePt where
  time : Nat
  x : Int
  y : Int
deriving DecidableEq, Repr

/-- Payload of a `mouse_thrash` emission (tracker.js 482-487). -/
structure ThrashEvent where
  totalDistance : Int
  directionChanges : Nat
  duration : Nat
  movementCount : Nat
deriving DecidableEq, Repr

/-- The movement direction label
`(dx > 0 ? 'R' : 'L') + (dy > 0 ? 'D' : 'U')` (tracker.js 474). -/
def dirOf (dx dy : Int) : String :=
  (if 0 < dx then "R" else "L") ++ (if 0 < dy then "D" else "U")

/-- The loop of `detectMouseThrashing` (tracker.js 466-479): walk
consecutive samples, summing the step distance `d dx dy` and counting
changes of direction label.  The step distance
`Math.sqrt(dx*dx + dy*dy)` is an irrational-valued function, so it is
taken as a parameter `d` into an arbitrary linear ordered ring with
rounding; the detector's control structure does not depend on its values,
and every theorem below quantifies over all `α` and `d`, hence holds in
particular for `α = ℝ` and the exact Euclidean distance. -/
def thrashLoop {α : Type} [LinearOrderedRing α] (d : Int → Int → α) :
    MousePt → Option String → α → Nat → List MousePt → α × Nat
  | _, _, dist, changes, [] => (dist, changes)
  | prev, lastDir, dist, changes, curr :: rest =>
    let dx := curr.x - prev.x
    let dy := curr.y - prev.y
    let dir := dirOf dx dy
    let changes1 :=
      match lastDir with
      | some s => if dir ≠ s then changes + 1 else changes
      | none => changes
    thrashLoop d curr (some dir) (dist + d dx dy) changes1 rest

/-- Accumulated distance and direction-change count over a buffer,
starting from its first sample (`for (let i = 1; ...)`). -/
def thrashStats {α : Type} [LinearOrderedRing α] (d : Int → Int → α)
    (l : List MousePt) : α × Nat :=
  match l with
  | [] => (0, 0)
  | first :: rest => thrashLoop d first none 0 0 rest

/-- `detectMouseThrashing` (tracker.js 452-492): prune the buffer to the
most recent 1000ms; if fewer than 10 samples remain, do nothing; else if
the accumulated distance exceeds 500 and at least 4 direction changes
occurred, emit `mouse_thrash` (with `Math.round`ed total distance) and
clear the buffer. -/
def detectMouseThrashing {α : Type} [LinearOrderedRing α] [FloorRing α]
    (d : Int → Int → α) (now : Nat) (buf : List MousePt) :
    List MousePt × Option ThrashEvent :=
  let buf1 := buf.filter fun m => now - m.time < 1000
  if buf1.length < 10 then (buf1, none)
  else
    let s := thrashStats d buf1
    if 500 < s.1 ∧ 4 ≤ s.2 then
      ([], some ⟨round s.1, s.2, now - (buf1.headD ⟨0, 0, 0⟩).time, buf1.length⟩)
    else (buf1, none)

/-- `trackMouseMove` (tracker.js 585-601): drop the event if the last
buffered sample is less than 50ms old (throttle); otherwise push the
sample, prune entries older than 2000ms, and run the thrash detector
(which itself prunes to 1000ms and may clear the buffer). -/
def trackMouseMove {α : Type} [LinearOrderedRing α] [FloorRing α]
    (d : Int → Int → α) (buf : List MousePt) (e : MousePt) :
    List MousePt × Option ThrashEvent :=
  match buf.getLast? with
  | some last =>
    if e.time - last.time < 50 then (buf, none)
    else detectMouseThrashing d e.time ((buf ++ [e]).filter fun m => e.time - m.time < 2000)
  | none =>
    detectMouseThrashing d e.time ((buf ++ [e]).filter fun m => e.time - m.time < 2000)

/-- Process a sequence of mousemove events starting from an empty buffer,
collecting every `mouse_thrash` emission. -/
def runMouse {α : Type} [LinearOrderedRing α] [FloorRing α]
    (d : Int → Int → α) (es : List MousePt) :
    List MousePt × List ThrashEvent :=
  es.foldl
    (fun s e =>
      let r := trackMouseMove d s.1 e
      (r.1, s.2 ++ r.2.toList))
    ([], [])

/-- A concrete stand-in step-distance function used by concrete
evaluations: the taxicab length `|dx| + |dy|` valued in `ℤ`.  On the
axis-aligned moves used by the witnesses it coincides with the Euclidean
distance. -/
def dtaxi (dx dy : Int) : Int :=
  ((dx.natAbs + dy.natAbs : Nat) : Int)

/-! ## Scroll milestone tracker (tracker.js lines 603-620) -/

/-- Per-page scroll state: the monotonic high-water mark `maxScrollDepth`
and the largest milestone already sent, `lastScrollDepthSent` (both start
at 0 on page entry). -/
structure ScrollState where
  maxScrollDepth : Nat
  lastScrollDepthSent : Nat
deriving DecidableEq, Repr

/-- Payload of a `scroll_milestone` emission (tracker.js 613-616). -/
structure ScrollEvent where
  depth : Nat
  maxDepth : Nat
deriving DecidableEq, Repr

/-- The milestone list `[25, 50, 75, 90, 100]` (tracker.js 609). -/
def milestonesList : List Nat := [25, 50, 75, 90, 100]

/-- The `for ... break` loop of `trackScroll` (tracker.js 610-619): return
the first milestone, in list order, with `maxScrollDepth >= milestone`
and `lastScrollDepthSent < milestone`; the loop breaks after the first
hit, so at most one milestone is selected per scroll event. -/
def scrollLoop (maxD lastSent : Nat) : List Nat → Option Nat
  | [] => none
  | ms :: rest =>
    if ms ≤ maxD ∧ lastSent < ms then some ms else scrollLoop maxD lastSent rest

/-- `trackScroll` (tracker.js 603-620): raise the high-water mark to the
current depth, then emit at most one milestone event (the loop above),
recording it in `lastScrollDepthSent`. -/
def trackScroll (st : ScrollState) (depth : Nat) : ScrollState × List ScrollEvent :=
  let maxD := if st.maxScrollDepth < depth then depth else st.maxScrollDepth
  match scrollLoop maxD st.lastScrollDepthSent milestonesList with
  | some ms => (⟨maxD, ms⟩, [⟨ms, maxD⟩])
  | none => (⟨maxD, st.lastScrollDepthSent⟩, [])

/-- Scroll state on page entry (tracker.js 19, 24). -/
def initScroll : ScrollState := ⟨0, 0⟩

/-- Process a sequence of scroll events (each given by its computed scroll
depth percentage), collecting the milestone emissions in order. -/
def runScroll (st : ScrollState) : List Nat → ScrollState × List ScrollEvent
  | [] => (st, [])
  | dep :: rest =>
    let r := trackScroll st dep
    let r2 := runScroll r.1 rest
    (r2.1, r.2 ++ r2.2)

/-! ## Identity manager (tracker.js lines 46-62) -/

/-- The session record stored in tab-scoped `sessionStorage` under
`bi_session`: `{id, lastActivity}`. -/
structure SessionData where
  id : String
  lastActivity : Nat
deriving DecidableEq, Repr

/-- `30 * 60 * 1000` milliseconds (tracker.js 52). -/
def sessionTimeout : Nat := 30 * 60 * 1000

/-- `getOrCreateSessionId` (tracker.js 46-62).  `stored` is the parsed
session record (`none` when the key is absent or unparsable), `now` is
`Date.now()`, and `freshId` is the random id `generateId()` would mint.
Returns the session id together with the record written back to
storage. -/
def getOrCreateSessionId (stored : Option SessionData) (now : Nat)
    (freshId : String) : String × SessionData :=
  match stored with
  | some data =>
    if now - data.lastActivity < sessionTimeout then
      (data.id, { data with lastActivity := now })
    else (freshId, ⟨freshId, now⟩)
  | none => (freshId, ⟨freshId, now⟩)

/-! ## Form lifecycle state machine (tracker.js lines 166-294)

A form field, carrying the attributes the tracking code reads.  `label`
stands for the text `getFieldLabel` resolves for the field (a `label[for]`
or enclosing-label lookup followed by the `placeholder`/`name` fallback);
the DOM label query itself is not re-modelled since no tracked decision
depends on it. -/

structure FormField where
  name : String
  fieldId : String
  ftype : String
  tag : String
  label : String
  value : String
  required : Bool
deriving DecidableEq, Repr

/-- A form as the ordered list of its `input, select, textarea` elements
(`form.querySelectorAll` document order). -/
structure HtmlForm where
  fields : List FormField
deriving DecidableEq, Repr

/-- `field.name || field.id || field.type` (tracker.js 215). -/
def fieldKey (f : FormField) : String :=
  if f.name ≠ "" then f.name
  else if f.fieldId ≠ "" then f.fieldId
  else f.ftype

/-- `field.type || field.tagName.toLowerCase()` (tracker.js 224, 240). -/
def fieldTypeOf (f : FormField) : String :=
  if f.ftype ≠ "" then f.ftype else f.tag

/-- `previousField.name || previousField.id || 'unknown'` (tracker.js 238). -/
def skippedFieldKey (f : FormField) : String :=
  if f.name ≠ "" then f.name
  else if f.fieldId ≠ "" then f.fieldId
  else "unknown"

/-- The aggregate form metadata computed by `getFormInfo`
(tracker.js 176-188), restricted to the numeric fields; the
`formId`/`formName`/`formAction` identification strings decorate the
envelope only.  A field counts as filled when
`f.value && f.value.trim() !== ''`; the `trim` comparison is modelled by
`trimNonempty`, since a trimmed string is nonempty exactly when the
string contains a non-whitespace character.  The completion percentage
models the
source's `Math.round((filled / total) * 100)` — both operands are
nonnegative, where `Math.round x = floor (x + 1/2)` — as the exact
integer computation `(2 * (filled * 100) + total) / (2 * total)` in
truncating `Nat` division. -/
structure FormInfo where
  totalFields : Nat
  filledFields : Nat
  completionRate : Nat
deriving DecidableEq, Repr

/-- `s.trim() !== ''`: true exactly when `s` has a character that is not
whitespace. -/
def trimNonempty (s : String) : Bool :=
  s.data.any fun c => !c.isWhitespace

def getFormInfo (form : HtmlForm) : FormInfo :=
  let filled := (form.fields.filter fun f => f.value ≠ "" && trimNonempty f.value).length
  { totalFields := form.fields.length
    filledFields := filled
    completionRate :=
      if 0 < form.fields.length then
        (2 * (filled * 100) + form.fields.length) / (2 * form.fields.length)
      else 0 }

/-- The per-form tracking record held in the `activeForms` map
(tracker.js 193-198): start time, ordered list of interacted field keys,
the last interacted field as `(name, label, type)`, and the submitted
flag. -/
structure FormData where
  startTime : Nat
  fieldsInteracted : List String
  lastField : Option (String × String × String)
  submitted : Bool
deriving DecidableEq, Repr

/-- The form-related events emitted by the tracker, with the payload
fields the claims talk about. -/
inductive FormEvent where
  | form_start (info : FormInfo)
  | form_field_skip (info : FormInfo) (skippedField : String)
      (skippedFieldLabel : String) (skippedFieldType : String)
      (movedToField : String)
  | form_submit (info : FormInfo) (fieldsInteracted : Option Nat)
      (timeToComplete : Option Nat)
  | form_abandonment (info : FormInfo) (reason : String)
      (fieldsInteracted : List String) (lastFieldInteracted : Option String)
      (lastFieldLabel : Option String) (timeInForm : Nat)
deriving DecidableEq, Repr

def isFieldSkip : FormEvent → Bool
  | .form_field_skip _ _ _ _ _ => true
  | _ => false

def isAbandonment : FormEvent → Bool
  | .form_abandonment _ _ _ _ _ _ => true
  | _ => false

/-- `startTrackingForm` (tracker.js 190-203): if the form has no record
yet, create one and emit `form_start`. -/
def startTrackingForm (form : HtmlForm) (rec : Option FormData) (now : Nat) :
    Option FormData × List FormEvent :=
  match rec with
  | some fd => (some fd, [])
  | none => (some ⟨now, [], none, false⟩, [.form_start (getFormInfo form)])

/-- `trackFormFieldInteraction` (tracker.js 205-245) for a focus landing
on the field at position `idx` of the form's input list (the source
recovers `idx` via `inputs.indexOf(field)`; a focused form field is
always among the form's inputs, and the guard below mirrors the
`currentIndex > 0` test that makes a missing index harmless).  Steps:
ensure a record exists (emitting `form_start` on creation), append the
field key to `fieldsInteracted` if new, set `lastField`, and then — if
the field has a predecessor in document order that is not a password
field, has an empty `value`, and has `required !== false` — emit
`form_field_skip`.  No record is kept of previously reported skips. -/
def trackFormFieldInteraction (form : HtmlForm) (rec : Option FormData)
    (idx : Nat) (now : Nat) : Option FormData × List FormEvent :=
  match form.fields[idx]? with
  | none => (rec, [])
  | some field =>
    let s := startTrackingForm form rec now
    match s.1 with
    | none => (none, [])
    | some fd0 =>
      let key := fieldKey field
      let interacted :=
        if fd0.fieldsInteracted.contains key then fd0.fieldsInteracted
        else fd0.fieldsInteracted ++ [key]
      let fd1 : FormData :=
        { fd0 with
            fieldsInteracted := interacted
            lastField := some (key, field.label, fieldTypeOf field) }
      let skips :=
        if 0 < idx then
          match form.fields[idx - 1]? with
          | some prev =>
            let isSensitive := ["password"].contains prev.ftype
            if !isSensitive && prev.value == "" && prev.required then
              [FormEvent.form_field_skip (getFormInfo form) (skippedFieldKey prev)
                prev.label (fieldTypeOf prev) key]
            else []
          | none => []
        else []
      (some fd1, s.2 ++ skips)

/-- Process a sequence of field focuses on one form, starting untracked,
collecting the emissions in order. -/
def runFormFocus (form : HtmlForm) (idxs : List (Nat × Nat)) :
    Option FormData × List FormEvent :=
  idxs.foldl
    (fun s p =>
      let r := trackFormFieldInteraction form s.1 p.1 p.2
      (r.1, s.2 ++ r.2))
    (none, [])

/-- `checkFormAbandonment` (tracker.js 247-273): a no-op when the form has
no live record; deletes the record silently when it was submitted; emits
`form_abandonment` and deletes the record when at least one field key was
interacted with and the form currently has at least one filled field;
otherwise deletes the record silently. -/
def checkFormAbandonment (form : HtmlForm) (rec : Option FormData)
    (reason : String) (now : Nat) : Option FormData × List FormEvent :=
  match rec with
  | none => (none, [])
  | some formData =>
    if formData.submitted then (none, [])
    else
      let formInfo := getFormInfo form
      if 0 < formData.fieldsInteracted.length ∧ 0 < formInfo.filledFields then
        (none,
          [.form_abandonment formInfo reason formData.fieldsInteracted
            (formData.lastField.map fun lf => lf.1)
            (formData.lastField.map fun lf => lf.2.1)
            (now - formData.startTime)])
      else (none, [])

/-- The public `reportFormAbandonment` API (tracker.js 956-960):
`checkFormAbandonment(formElement, reason || 'manual')`. -/
def reportFormAbandonment (form : HtmlForm) (rec : Option FormData)
    (reason : String) (now : Nat) : Option FormData × List FormEvent :=
  checkFormAbandonment form rec (if reason = "" then "manual" else reason) now

/-- `trackFormSubmit` (tracker.js 275-294): on a tracked form, set
`submitted`, emit `form_submit` with interaction count and completion
time, and delete the record; on an untracked form, emit a bare
`form_submit`. -/
def trackFormSubmit (form : HtmlForm) (rec : Option FormData) (now : Nat) :
    Option FormData × List FormEvent :=
  match rec with
  | some fd =>
    (none,
      [.form_submit (getFormInfo form) (some fd.fieldsInteracted.length)
        (some (now - fd.startTime))])
  | none => (none, [.form_submit (getFormInfo form) none none])

/-! ## Click handler sequencing (tracker.js lines 545-583)

`trackClick` runs its detections in sequence with no exception handling:
`detectRageClick`, then (when no rage click) `detectDeadClick`, then
`detectFormCancelClick`, and finally `sendEvent('click', ...)`.  Host-page
DOM accessors inside any phase can throw; a phase is therefore modelled as
an `Except` computation producing the phase's result, and the handler as
the JavaScript sequencing of the phases — an uncaught exception aborts
the rest of the handler.  The successful result is the
`(isRageClick, isDeadClick)` pair carried by the emitted `click` event. -/

def trackClickE (rage : Except String Bool) (dead : Except String Bool)
    (cancel : Except String Unit) : Except String (Bool × Bool) := do
  let isRageClick ← rage
  let isDeadClick ← if isRageClick then pure false else dead
  let _ ← cancel
  pure (isRageClick, isDeadClick)

/-- Modelled from the spec: the isolation requirement of §7 — "an
exception thrown while processing one signal type must not prevent other
listeners from firing on the same interaction".  Each phase's exception
is contained, and the `click` event is emitted regardless. -/
def trackClickIsolated (rage : Except String Bool) (dead : Except String Bool)
    (cancel : Except String Unit) : Except String (Bool × Bool) :=
  let isRageClick := (rage.toOption).getD false
  let isDeadClick := if isRageClick then false else (dead.toOption).getD false
  let _ := cancel.toOption
  Except.ok (isRageClick, isDeadClick)

/-! ## Auxiliary predicates and concrete inputs used by the theorems -/

/-- The invariant of the mouse buffer over reachable states: consecutive
samples are at least 50ms apart (throttling), and any two buffered
samples are less than 1000ms apart (the thrash detector prunes to the
most recent 1000ms on every accepted sample). -/
def MInv (buf : List MousePt) : Prop :=
  buf.Pairwise (fun a b => a.time + 50 ≤ b.time) ∧
  ∀ a ∈ buf, ∀ b ∈ buf, b.time - a.time < 1000

/-- The skipped-field name carried by a `form_field_skip` event. -/
def skippedOf : FormEvent → Option String
  | .form_field_skip _ sk _ _ _ => some sk
  | _ => none

/-- Four clicks, all inside one 500ms window: three of them — the first,
second and fourth — lie within 50px of the first, while the third is
200px away. -/
def rageCs : List Click :=
  [⟨0, 0, 0⟩, ⟨100, 10, 10⟩, ⟨200, 0, 200⟩, ⟨300, 5, 5⟩]

/-- A plain `div` whose only clickability signal is a pointer cursor:
no clickable tag, role, handler, marker class, or clickable ancestor. -/
def divPointer : DomElement :=
  ⟨⟨"div", "", false, "pointer", "pointer", []⟩, []⟩

/-- A bare `button` element. -/
def buttonElem : DomElement :=
  ⟨⟨"button", "", false, "", "", []⟩, []⟩

/-- A required text field named `a`, left empty. -/
def fieldA : FormField := ⟨"a", "", "text", "input", "A", "", true⟩

/-- A required text field named `b`, left empty. -/
def fieldB : FormField := ⟨"b", "", "text", "input", "B", "", true⟩

/-- A two-field form: required-empty `a` followed by `b`. -/
def formC3 : HtmlForm := ⟨[fieldA, fieldB]⟩

/-- A text field named `b` that is prefilled with the value `x` and never
focused. -/
def fieldBFilled : FormField := ⟨"b", "", "text", "input", "B", "x", false⟩

/-- A form whose first field `a` is empty and whose second field `b` is
prefilled. -/
def formC5 : HtmlForm := ⟨[fieldA, fieldBFilled]⟩

/-- The tracking record reached by focusing field `a` of `formC5` at time
0: field `a` interacted with, nothing submitted. -/
def fdC5 : FormData := ⟨0, ["a"], some ("a", "A", "text"), false⟩

/-- Eleven mouse samples, 50ms apart, oscillating along the x axis in
steps of 60px: 600px of travel and 9 direction reversals inside one
second. -/
def thrashWitnessBuf : List MousePt :=
  [⟨0, 0, 0⟩, ⟨50, 60, 0⟩, ⟨100, 0, 0⟩, ⟨150, 60, 0⟩, ⟨200, 0, 0⟩,
   ⟨250, 60, 0⟩, ⟨300, 0, 0⟩, ⟨350, 60, 0⟩, ⟨400, 0, 0⟩, ⟨450, 60, 0⟩,
   ⟨500, 0, 0⟩]

/-! # Theorems

## C1 — rage click clustering -/

/-- C1 counterexample.  The claim reads: whenever at least 3 clicks fall
within a 500ms window and within 50px of the first buffered click, exactly
one `rage_click` is emitted.  In `rageCs` the first, second and fourth
clicks all lie within 500ms of the first buffered click (the head of the
list, which is never pruned during this run) and within 50px of its
coordinates — the filter below counts exactly those clicks — yet the run
emits no `rage_click` at all, because `detectRageClick` demands that
*every* buffered click, including the stray third one at distance 200px,
be within 50px of the first. -/
theorem C1_counterexample :
    rageCs.headD ⟨0, 0, 0⟩ = ⟨0, 0, 0⟩ ∧
    3 ≤ (rageCs.filter fun c =>
        decide (c.time - 0 < 500) && decide ((c.x - 0).natAbs < 50) &&
          decide ((c.y - 0).natAbs < 50)).length ∧
    (runRage rageCs).2 = [] := by decide

/-- C1 (amended): when, after appending the incoming click and pruning
entries older than 500ms, the buffer holds at least 3 samples and *all*
of them are within 50px of the first buffered sample, the click step
emits exactly one `rage_click` whose `clickCount` equals the number of
buffered samples, and clears the buffer — so a subsequent cluster must
accumulate from an empty buffer and no overlapping cluster is counted
twice. -/
theorem C1_rage_cluster (buf : List Click) (c : Click)
    (h3 : 3 ≤ (pruneClicks c.time (buf ++ [c])).length)
    (harea : allInSameArea (pruneClicks c.time (buf ++ [c])) = true) :
    detectRageClick buf c =
      ([], some ⟨(pruneClicks c.time (buf ++ [c])).length,
        c.time - ((pruneClicks c.time (buf ++ [c])).headD ⟨0, 0, 0⟩).time⟩) := by
  simp only [detectRageClick]
  rw [if_pos h3, if_pos harea]

/-- C1 witness: the scenario of the spec — clicks at (100,100), (110,105)
and (120,95) within 300ms — produces one `rage_click` with
`clickCount = 3`, and the buffer is cleared. -/
theorem C1_witness :
    detectRageClick [⟨0, 100, 100⟩, ⟨150, 110, 105⟩] ⟨300, 120, 95⟩ =
      ([], some ⟨3, 300⟩) := by
  rw [C1_rage_cluster _ _ (by decide) (by decide)]
  decide

/-! ## C2 — dead click heuristic -/

/-- C2 counterexample.  The claim reads: an element whose only
clickability signal is its pointer cursor styling and which fails the
structural predicate gets a `dead_click`.  `divPointer` is exactly such
an element — it looks clickable and is not structurally clickable — yet
`detectDeadClick` does not fire, because the source's
`isClickableElement` itself treats a pointer cursor as clickable, making
`isActuallyClickable` true. -/
theorem C2_counterexample :
    looksClickable divPointer.attrs = true ∧
    structurallyClickable divPointer = false ∧
    detectDeadClick divPointer = false := by decide

/-- C2 (amended): `dead_click` fires exactly when the target looks
clickable and is not `isActuallyClickable`, where actual clickability is
broader than the structural predicate: it also covers a `label` tag and a
pointer cursor on the element itself.  Consequently `dead_click` never
fires for a structurally clickable element (second conjunct, the part of
the claim that holds), and never fires for any element styled with a
pointer cursor (third conjunct) — so a pointer-cursor-only affordance can
never produce a dead click. -/
theorem C2_dead_click (e : DomElement) :
    (detectDeadClick e = (looksClickable e.attrs && !isActuallyClickable e)) ∧
    (structurallyClickable e = true → detectDeadClick e = false) ∧
    ((e.attrs.styleCursor == "pointer" || e.attrs.computedCursor == "pointer") = true →
      detectDeadClick e = false) := by
  refine ⟨rfl, ?_, ?_⟩
  · intro h
    have hact : isActuallyClickable e = true := by
      rcases Bool.or_eq_true_iff.mp h with h1 | h1
      · simp [isActuallyClickable, h1]
      · simp [isActuallyClickable, isClickableElement, h1]
    simp [detectDeadClick, hact]
  · intro h
    have hact : isActuallyClickable e = true := by
      rcases Bool.or_eq_true_iff.mp h with h1 | h1 <;>
        simp [isActuallyClickable, isClickableElement, h1]
    simp [detectDeadClick, hact]

/-- C2 witness: a bare `button` element is structurally clickable, and no
`dead_click` fires for it. -/
theorem C2_witness : detectDeadClick buttonElem = false :=
  (C2_dead_click buttonElem).2.1 (by decide)

/-! ## C3 — form field skip -/

/-- C3 counterexample.  The claim reads: `form_field_skip` fires at most
once per (form, field) pair per lifecycle.  Focusing field `b`, then `a`,
then `b` again on `formC3` — one uninterrupted lifecycle, the record is
still live at the end — emits `form_field_skip` naming field `a` twice,
because the source keeps no record of previously reported skips. -/
theorem C3_counterexample :
    ((runFormFocus formC3 [(1, 0), (0, 1), (1, 2)]).2.filterMap skippedOf) =
      ["a", "a"] ∧
    ((runFormFocus formC3 [(1, 0), (0, 1), (1, 2)]).1).isSome = true := by decide

/-- C3 (amended): on every focus landing on the field at position
`idx ≥ 1` of the form, exactly one `form_field_skip` is emitted when the
immediately preceding field in document order is not a password field,
has an empty value and is required — and none otherwise.  The emission is
independent of the tracking record, so it is *not* limited to once per
(form, field) pair, and fires even on the first focus of a lifecycle. -/
theorem C3_skip_condition (form : HtmlForm) (rec : Option FormData) (idx now : Nat)
    (field prev : FormField)
    (hf : form.fields[idx]? = some field)
    (hp : form.fields[idx - 1]? = some prev)
    (h0 : 0 < idx) :
    ((trackFormFieldInteraction form rec idx now).2.filter isFieldSkip).length =
      if !(["password"].contains prev.ftype) && prev.value == "" && prev.required
      then 1 else 0 := by
  simp only [trackFormFieldInteraction, hf, hp, h0, if_pos]
  cases rec with
  | none =>
    simp only [startTrackingForm]
    split <;> simp [isFieldSkip, List.filter]
  | some fd =>
    simp only [startTrackingForm]
    split <;> simp [isFieldSkip, List.filter]

/-- C3 witness: the first focus on field `b` of `formC3` (required-empty
field `a` precedes it) emits exactly one `form_field_skip`. -/
theorem C3_witness :
    ((trackFormFieldInteraction formC3 none 1 0).2.filter isFieldSkip).length = 1 := by
  rw [C3_skip_condition formC3 none 1 0 fieldB fieldA (by decide) (by decide) (by decide)]
  decide

/-! ## C4 — abandonment is idempotent and terminal -/

/-- C4: abandonment is idempotent and terminal.  A `checkFormAbandonment`
on a live record always destroys the record (first conjunct, whatever the
reason and time); a check on an already-destroyed record — reached from
any trigger, the public `reportFormAbandonment` API included — returns
the state unchanged and emits nothing (second and third conjuncts); and
in particular a second check right after a first one emits nothing
(fourth conjunct), so `form_abandonment` is emitted at most once per
record. -/
theorem C4_abandon_idempotent (form : HtmlForm) (fd : FormData)
    (r1 r2 : String) (n1 n2 : Nat) :
    (checkFormAbandonment form (some fd) r1 n1).1 = none ∧
    checkFormAbandonment form none r2 n2 = (none, []) ∧
    reportFormAbandonment form none r2 n2 = (none, []) ∧
    (checkFormAbandonment form
      (checkFormAbandonment form (some fd) r1 n1).1 r2 n2).2 = [] := by
  have h1 : (checkFormAbandonment form (some fd) r1 n1).1 = none := by
    simp only [checkFormAbandonment]
    split <;> [rfl; split <;> rfl]
  refine ⟨h1, rfl, rfl, ?_⟩
  rw [h1]
  rfl

/-! ## C5 — abandonment emission condition -/

/-- C5 counterexample.  The claim reads: `form_abandonment` is emitted
only if at least one field was both interacted with and had a non-empty
value.  Focusing only the empty field `a` of `formC5` (whose field `b` is
prefilled but never interacted with) yields exactly the record `fdC5`;
an abandonment check on it emits `form_abandonment` although no single
field is both interacted with and non-empty — the source tests the two
conditions against different fields (any interaction, any filled field at
check time). -/
theorem C5_counterexample :
    (trackFormFieldInteraction formC5 none 0 0).1 = some fdC5 ∧
    (checkFormAbandonment formC5 (some fdC5) "page_exit" 5).2.any isAbandonment = true ∧
    (∀ f ∈ formC5.fields, ¬(fdC5.fieldsInteracted.contains (fieldKey f) = true ∧
      f.value ≠ "")) := by decide

/-- C5 (amended): on a live record, `form_abandonment` is emitted exactly
when the record is unsubmitted, at least one field key was interacted
with over the lifecycle, and at least one field — not necessarily an
interacted one — has a non-empty (non-whitespace) value at the moment of
the abandonment check; in every case the record is destroyed, silently
when the condition fails. -/
theorem C5_abandon_condition (form : HtmlForm) (fd : FormData)
    (reason : String) (now : Nat) :
    ((checkFormAbandonment form (some fd) reason now).2 ≠ [] ↔
      (fd.submitted = false ∧ fd.fieldsInteracted ≠ [] ∧
        0 < (getFormInfo form).filledFields)) ∧
    (checkFormAbandonment form (some fd) reason now).1 = none := by
  constructor
  · simp only [checkFormAbandonment]
    split
    · simp_all
    · split
      · rename_i hsub hcond
        simp only [ne_eq, List.cons_ne_nil, not_false_eq_true, true_iff]
        exact ⟨Bool.eq_false_iff.mpr hsub, List.length_pos.mp hcond.1, hcond.2⟩
      · rename_i hsub hcond
        simp only [ne_eq, not_true_eq_false, false_iff, not_and]
        intro _ hint
        intro hfill
        exact hcond ⟨List.length_pos.mpr hint, hfill⟩
  · simp only [checkFormAbandonment]
    split <;> [rfl; split <;> rfl]

/-- C5 witness: on `formC5` with record `fdC5` (field `a` interacted,
field `b` filled) the abandonment check does emit. -/
theorem C5_witness :
    (checkFormAbandonment formC5 (some fdC5) "page_exit" 5).2 ≠ [] :=
  (C5_abandon_condition formC5 fdC5 "page_exit" 5).1.mpr (by decide)

/-! ## C6 — mouse buffer windows

Helper: in a buffer whose consecutive samples are at least 50ms apart,
every sample is at most as old as the last one. -/

theorem time_le_getLast :
    ∀ (buf : List MousePt), buf.Pairwise (fun a b => a.time + 50 ≤ b.time) →
      ∀ x last, x ∈ buf → buf.getLast? = some last → x.time ≤ last.time := by
  intro buf
  induction buf with
  | nil => intro _ x last hx; cases hx
  | cons a t ih =>
    intro hs x last hx hl
    cases t with
    | nil =>
      simp only [List.getLast?_singleton, Option.some.injEq] at hl
      rcases List.mem_singleton.mp hx with rfl
      rw [hl]
    | cons b t2 =>
      rw [List.getLast?_cons_cons] at hl
      rcases List.mem_cons.mp hx with rfl | hx2
      · have hlast_mem : last ∈ b :: t2 := List.mem_of_mem_getLast? hl
        have := (List.pairwise_cons.mp hs).1 last hlast_mem
        omega
      · exact ih (List.pairwise_cons.mp hs).2 x last hx2 hl

/-- The thrash detector either returns the 1000ms-pruned buffer or clears
it. -/
theorem detectMouseThrashing_fst {α : Type} [LinearOrderedRing α] [FloorRing α]
    (d : Int → Int → α) (now : Nat) (buf : List MousePt) :
    (detectMouseThrashing d now buf).1 = buf.filter (fun m => now - m.time < 1000) ∨
    (detectMouseThrashing d now buf).1 = [] := by
  simp only [detectMouseThrashing]
  split
  · exact Or.inl rfl
  · split
    · exact Or.inr rfl
    · exact Or.inl rfl

/-- The accepted-sample path of `trackMouseMove` preserves the buffer
invariant and leaves only samples less than 2000ms old. -/
theorem mouse_accept_inv {α : Type} [LinearOrderedRing α] [FloorRing α]
    (d : Int → Int → α) (buf : List MousePt) (e : MousePt)
    (hInv : MInv buf)
    (hgap : ∀ a ∈ buf, a.time + 50 ≤ e.time)
    (hclock : ∀ s ∈ buf, s.time ≤ e.time) :
    MInv (detectMouseThrashing d e.time
      ((buf ++ [e]).filter fun m => e.time - m.time < 2000)).1 ∧
    ∀ s ∈ (detectMouseThrashing d e.time
      ((buf ++ [e]).filter fun m => e.time - m.time < 2000)).1,
      e.time - s.time < 2000 := by
  rcases detectMouseThrashing_fst d e.time
      ((buf ++ [e]).filter fun m => e.time - m.time < 2000) with hres | hres
  · rw [hres]
    have hpApp : (buf ++ [e]).Pairwise (fun a b => a.time + 50 ≤ b.time) := by
      rw [List.pairwise_append]
      refine ⟨hInv.1, List.pairwise_singleton _ _, ?_⟩
      intro a ha b hb
      rcases List.mem_singleton.mp hb with rfl
      exact hgap a ha
    have hsub :
        ((((buf ++ [e]).filter fun m => e.time - m.time < 2000).filter
          fun m => e.time - m.time < 1000)).Sublist (buf ++ [e]) :=
      (List.filter_sublist _).trans (List.filter_sublist _)
    refine ⟨⟨hpApp.sublist hsub, ?_⟩, ?_⟩
    · intro a ha b hb
      have ha1 : e.time - a.time < 1000 := by
        simpa using (List.mem_filter.mp ha).2
      have hb2 : b ∈ buf ++ [e] :=
        List.mem_of_mem_filter (List.mem_of_mem_filter hb)
      have hble : b.time ≤ e.time := by
        rcases List.mem_append.mp hb2 with h | h
        · exact hclock b h
        · rcases List.mem_singleton.mp h with rfl; exact le_refl _
      omega
    · intro s hs
      have : e.time - s.time < 1000 := by
        simpa using (List.mem_filter.mp hs).2
      omega
  · rw [hres]
    exact ⟨⟨List.Pairwise.nil, by simp⟩, by simp⟩

/-- The throttle branch of `trackMouseMove` as an equation. -/
theorem trackMouseMove_throttle {α : Type} [LinearOrderedRing α] [FloorRing α]
    (d : Int → Int → α) (buf : List MousePt) (e : MousePt) (last : MousePt)
    (hl : buf.getLast? = some last) (hth : e.time - last.time < 50) :
    trackMouseMove d buf e = (buf, none) := by
  unfold trackMouseMove
  rw [hl]
  exact if_pos hth

/-- The accepting branch of `trackMouseMove` as an equation. -/
theorem trackMouseMove_noThrottle {α : Type} [LinearOrderedRing α] [FloorRing α]
    (d : Int → Int → α) (buf : List MousePt) (e : MousePt) (last : MousePt)
    (hl : buf.getLast? = some last) (hth : ¬e.time - last.time < 50) :
    trackMouseMove d buf e =
      detectMouseThrashing d e.time
        ((buf ++ [e]).filter fun m => e.time - m.time < 2000) := by
  unfold trackMouseMove
  rw [hl]
  exact if_neg hth

/-- C6 counterexample.  The claim reads: samples are evicted only when
they exceed the 2000ms age window, never earlier.  Running two mousemove
events at t=0 and t=1500 from an empty buffer leaves only the second
sample: the first is 1500ms old — strictly inside the 2000ms window — yet
evicted, because `detectMouseThrashing` prunes the buffer to the most
recent 1000ms on every accepted sample. -/
theorem C6_counterexample :
    (runMouse dtaxi [⟨0, 0, 0⟩, ⟨1500, 0, 0⟩]).1 = [⟨1500, 0, 0⟩] ∧
    (⟨0, 0, 0⟩ : MousePt) ∉ (runMouse dtaxi [⟨0, 0, 0⟩, ⟨1500, 0, 0⟩]).1 ∧
    1500 - (0 : Nat) < 2000 := by decide

/-- C6 (amended): over states satisfying the buffer invariant `MInv`
(which holds of every reachable buffer, the empty start state included),
processing a mousemove event at a time not before the buffered samples
preserves the invariant — consecutive samples at least 50ms apart, any
two samples less than 1000ms apart — and leaves every retained sample
strictly less than 2000ms old.  The age bound of the claim holds, and the
throttling bound holds, but retention is governed by the thrash
detector's 1000ms pruning (and its clearing on emission), not by the
2000ms window alone. -/
theorem C6_buffer_invariant {α : Type} [LinearOrderedRing α] [FloorRing α]
    (d : Int → Int → α) (buf : List MousePt) (e : MousePt)
    (hInv : MInv buf) (hclock : ∀ s ∈ buf, s.time ≤ e.time) :
    MInv (trackMouseMove d buf e).1 ∧
    ∀ s ∈ (trackMouseMove d buf e).1, e.time - s.time < 2000 := by
  rcases Option.eq_none_or_eq_some buf.getLast? with hl | ⟨last, hl⟩
  · have hnil : buf = [] := by simpa using List.getLast?_eq_none_iff.mp hl
    subst hnil
    exact mouse_accept_inv d [] e hInv (by simp) (by simp)
  · by_cases hth : e.time - last.time < 50
    · rw [trackMouseMove_throttle d buf e last hl hth]
      refine ⟨hInv, ?_⟩
      intro s hs
      have hlm : last ∈ buf := List.mem_of_mem_getLast? hl
      have h1 : last.time - s.time < 1000 := hInv.2 s hs last hlm
      have h2 : s.time - last.time < 1000 := hInv.2 last hlm s hs
      have h3 : s.time ≤ e.time := hclock s hs
      omega
    · rw [trackMouseMove_noThrottle d buf e last hl hth]
      refine mouse_accept_inv d buf e hInv ?_ hclock
      intro a ha
      have h1 : a.time ≤ last.time := time_le_getLast buf hInv.1 a last ha hl
      omega

/-- C6 witness: a singleton buffer and a sample 100ms later satisfy the
hypotheses, and the conclusion evaluates on them. -/
theorem C6_witness :
    MInv (trackMouseMove dtaxi [⟨0, 0, 0⟩] ⟨100, 3, 4⟩).1 ∧
    ∀ s ∈ (trackMouseMove dtaxi [⟨0, 0, 0⟩] ⟨100, 3, 4⟩).1,
      (⟨100, 3, 4⟩ : MousePt).time - s.time < 2000 :=
  C6_buffer_invariant dtaxi [⟨0, 0, 0⟩] ⟨100, 3, 4⟩ (by simp [MInv]) (by decide)

/-! ## C7 — mouse thrash preconditions -/

/-- C7: `mouse_thrash` only fires when all its preconditions hold — for
any step-distance function into any ordered ring (the Euclidean one on
the reals included), an emission implies that the 1000ms-pruned buffer
holds at least 10 samples, the accumulated distance over its consecutive
samples exceeds 500, and the direction-reversal count is at least 4.
Contrapositively, no emission happens when any of the three fails. -/
theorem C7_thrash_preconditions {α : Type} [LinearOrderedRing α] [FloorRing α]
    (d : Int → Int → α) (now : Nat) (buf : List MousePt) (ev : ThrashEvent)
    (h : (detectMouseThrashing d now buf).2 = some ev) :
    10 ≤ (buf.filter fun m => now - m.time < 1000).length ∧
    500 < (thrashStats d (buf.filter fun m => now - m.time < 1000)).1 ∧
    4 ≤ (thrashStats d (buf.filter fun m => now - m.time < 1000)).2 := by
  simp only [detectMouseThrashing] at h
  split at h
  · simp at h
  · split at h
    · rename_i hlen hcond
      exact ⟨by omega, hcond.1, hcond.2⟩
    · simp at h

/-- C7 witness: eleven axis-aligned samples with 600px of travel and 9
reversals inside 1000ms trigger an emission, and the preconditions hold
of them. -/
theorem C7_witness :
    10 ≤ (thrashWitnessBuf.filter fun m => 900 - m.time < 1000).length ∧
    (500 : Int) <
      (thrashStats dtaxi (thrashWitnessBuf.filter fun m => 900 - m.time < 1000)).1 ∧
    4 ≤ (thrashStats dtaxi (thrashWitnessBuf.filter fun m => 900 - m.time < 1000)).2 :=
  C7_thrash_preconditions dtaxi 900 thrashWitnessBuf ⟨600, 9, 900, 11⟩ (by decide)

/-! ## C8 — session identity -/

/-- C8: the session-id operation returns the stored id and refreshes
`lastActivity` exactly when a record is present and `now - lastActivity`
is strictly below 30 minutes; otherwise — stale record or no record — it
mints the fresh id and persists it with the current time.  Consequently
the id is stable across reloads whose gaps stay below 30 minutes, and is
replaced after a gap of 30 minutes or more. -/
theorem C8_session (d : SessionData) (now now2 : Nat) (f f2 : String) :
    (now - d.lastActivity < sessionTimeout →
      getOrCreateSessionId (some d) now f = (d.id, ⟨d.id, now⟩) ∧
      (now2 - now < sessionTimeout →
        (getOrCreateSessionId (some ⟨d.id, now⟩) now2 f2).1 = d.id) ∧
      (sessionTimeout ≤ now2 - now →
        (getOrCreateSessionId (some ⟨d.id, now⟩) now2 f2).1 = f2)) ∧
    (sessionTimeout ≤ now - d.lastActivity →
      getOrCreateSessionId (some d) now f = (f, ⟨f, now⟩)) ∧
    getOrCreateSessionId none now f = (f, ⟨f, now⟩) := by
  refine ⟨?_, ?_, rfl⟩
  · intro h1
    refine ⟨?_, ?_, ?_⟩
    · simp only [getOrCreateSessionId]
      rw [if_pos h1]
    · intro h2
      simp only [getOrCreateSessionId]
      rw [if_pos h2]
    · intro h2
      simp only [getOrCreateSessionId]
      rw [if_neg (by omega)]
  · intro h1
    simp only [getOrCreateSessionId]
    rw [if_neg (by omega)]

/-- C8 witness: a session last active at t=0 is returned unchanged at
t=1000, and after a 30-minute gap a fresh id replaces it. -/
theorem C8_witness :
    getOrCreateSessionId (some ⟨"s", 0⟩) 1000 "f" = ("s", ⟨"s", 1000⟩) ∧
    (getOrCreateSessionId (some ⟨"s", 1000⟩) (sessionTimeout + 1000) "g").1 = "g" :=
  ⟨((C8_session ⟨"s", 0⟩ 1000 (sessionTimeout + 1000) "f" "g").1 (by decide)).1,
   ((C8_session ⟨"s", 0⟩ 1000 (sessionTimeout + 1000) "f" "g").1 (by decide)).2.2
     (by decide)⟩

/-! ## C9 — scroll milestones

Helper: what the milestone loop returns. -/

theorem scrollLoop_some {maxD lastSent ms : Nat} :
    ∀ {l : List Nat}, scrollLoop maxD lastSent l = some ms →
      lastSent < ms ∧ ms ≤ maxD ∧ ms ∈ l := by
  intro l
  induction l with
  | nil => intro h; simp [scrollLoop] at h
  | cons a t ih =>
    intro h
    unfold scrollLoop at h
    split at h
    · rename_i hc
      cases h
      exact ⟨hc.2, hc.1, List.mem_cons_self _ _⟩
    · rcases ih h with ⟨h1, h2, h3⟩
      exact ⟨h1, h2, List.mem_cons_of_mem _ h3⟩

/-- Every milestone emitted during a run exceeds the starting
`lastScrollDepthSent`, is bounded by the final one, and is a member of
the milestone list; the emitted depths are strictly increasing. -/
theorem runScroll_spec (ds : List Nat) :
    ∀ st : ScrollState,
      st.lastScrollDepthSent ≤ (runScroll st ds).1.lastScrollDepthSent ∧
      (∀ e ∈ (runScroll st ds).2,
        st.lastScrollDepthSent < e.depth ∧
        e.depth ≤ (runScroll st ds).1.lastScrollDepthSent ∧
        e.depth ∈ milestonesList) ∧
      (runScroll st ds).2.Pairwise (fun a b => a.depth < b.depth) := by
  induction ds with
  | nil => intro st; simp [runScroll]
  | cons dep rest ih =>
    intro st
    simp only [runScroll, trackScroll]
    rcases hsl : scrollLoop (if st.maxScrollDepth < dep then dep else st.maxScrollDepth)
        st.lastScrollDepthSent milestonesList with _ | ms
    · simp only
      rcases ih ⟨if st.maxScrollDepth < dep then dep else st.maxScrollDepth,
        st.lastScrollDepthSent⟩ with ⟨ihle, ihall, ihpw⟩
      refine ⟨ihle, ?_, by simpa using ihpw⟩
      intro e he
      simp only [List.nil_append] at he
      exact ihall e he
    · simp only
      rcases scrollLoop_some hsl with ⟨hlt, hle, hmem⟩
      rcases ih ⟨if st.maxScrollDepth < dep then dep else st.maxScrollDepth, ms⟩
        with ⟨ihle, ihall, ihpw⟩
      dsimp only at ihle ihall
      refine ⟨by omega, ?_, ?_⟩
      · intro e he
        rcases List.mem_cons.mp he with rfl | he2
        · exact ⟨hlt, ihle, hmem⟩
        · rcases ihall e he2 with ⟨a1, a2, a3⟩
          exact ⟨by omega, a2, a3⟩
      · refine List.pairwise_cons.mpr ⟨?_, ihpw⟩
        intro e he
        exact (ihall e he).1

/-- C9 counterexample.  The claim reads: each milestone fires at the
scroll event on which the high-water mark first reaches or exceeds it.
A single scroll event jumping to depth 60 raises the high-water mark past
both 25 and 50, so by the claim both milestones should fire at that
event; the source emits only the 25 milestone, because the loop breaks
after the first unsent milestone. -/
theorem C9_counterexample :
    (runScroll initScroll [60]).2 = [⟨25, 60⟩] ∧
    50 ≤ (runScroll initScroll [60]).1.maxScrollDepth ∧
    (∀ e ∈ (runScroll initScroll [60]).2, e.depth ≠ 50) := by decide

/-- C9 (amended): over any scroll sequence from the initial state, the
emitted milestone depths are strictly increasing — so each of
{25, 50, 75, 90, 100} fires at most once and in increasing order — each
emission is one of the milestones, at most one milestone (the smallest
unsent one reached by the high-water mark) fires per scroll event, and
the monotonic 10→30→60 scenario of the spec emits exactly 25 then 50.
When one event crosses several milestones the later ones are deferred to
subsequent scroll events rather than fired at the crossing event. -/
theorem C9_milestones (ds : List Nat) :
    (runScroll initScroll ds).2.Pairwise (fun a b => a.depth < b.depth) ∧
    (∀ e ∈ (runScroll initScroll ds).2, e.depth ∈ milestonesList) ∧
    (runScroll initScroll [10, 30, 60]).2 = [⟨25, 30⟩, ⟨50, 60⟩] :=
  ⟨(runScroll_spec ds initScroll).2.2,
   fun e he => ((runScroll_spec ds initScroll).2.1 e he).2.2,
   by decide⟩

/-- C9 witness: the first milestone emitted by the 10→30→60 scenario is
a member of the milestone list. -/
theorem C9_witness : (⟨25, 30⟩ : ScrollEvent).depth ∈ milestonesList :=
  (C9_milestones [10, 30, 60]).2.1 ⟨25, 30⟩ (by decide)

/-! ## C10 — no isolation between detections of one click -/

/-- C10: `trackClick` sequences its detection phases with no exception
handling, so when the rage-click phase throws, the whole handler aborts
with that exception — dead-click detection, cancel-click detection and
the `click` emission never run (first conjunct: the result is the error,
not an emitted event).  The isolation the specification requires — second
conjunct, the spec-modelled `trackClickIsolated` — would contain the
exception and still emit the `click` event. -/
theorem C10_no_isolation (msg : String) (dead : Except String Bool)
    (cancel : Except String Unit) :
    trackClickE (Except.error msg) dead cancel = Except.error msg ∧
    trackClickIsolated (Except.error msg) dead cancel =
      Except.ok (false, (dead.toOption).getD false) :=
  ⟨rfl, rfl⟩
